import Mathlib

/-!
Verification of the PicoCalc FAT32 storage stack (src/drivers/fat32.c over
src/drivers/sdcard.c).

This file is a shallow embedding of the FAT32 driver into Lean.  The driver's
global mutable state (src/drivers/fat32.c lines 24-43 plus the block-device
environment it reads through sdcard.c) is collected into one structure `St`;
each C function becomes a pure Lean function from `St` (and its explicit
arguments) to its result, returning an updated handle / out-parameter value,
and an updated `St` for the functions that assign to driver globals
(fat32_mount, fat32_unmount, fat32_set_current_dir, fat32_init,
on_sd_card_detect - no other function in fat32.c writes a global apart from
the scratch sector_buffer, which is modelled as local data).

Machine integers are Nat with explicit reduction mod 2^32 (`u32`) where the C
uint32_t arithmetic can wrap.  C strings are lists of byte values (the bytes
up to the terminating NUL).  Out-parameters that a path may leave unwritten
are modelled as Option.  The 512-byte sectors of the card are functions
`Nat -> Nat` from byte offset to byte value; the whole card is
`disk : Nat -> Nat -> Nat` (block index, byte offset).

The header fat32.h is not present in the repository (only fat32.c and its
callers are), so its constants, structure layouts and the fat32_error_t
enumeration are modelled from the spec's error taxonomy (spec section 3) and
from the parallel definitions in src/drivers/sdcard.h (SECTOR_SIZE, ATTR_*,
FAT32_ENTRY_EOC, sd_error_t, sd_file_t, sd_dir_t, sd_dir_entry_t,
fat32_boot_sector_t, fat32_fsinfo_t, fat_dir_entry_t, fat_lfn_entry_t), which
fat32.c's code visibly mirrors.  In particular FAT32_OK must be 0 (results of
sd_read_block, whose SD_OK is 0, are returned directly as fat32_error_t
successes) and the enumerator after it is FAT32_ERROR_NO_CARD with value 1,
exactly as in sd_error_t and in the spec's taxonomy order.
-/

set_option maxRecDepth 10000

/-- Reduction of unsigned 32-bit C arithmetic. -/
def u32 (n : Nat) : Nat := n % 4294967296

/-- Little-endian 16-bit read at byte offset o of a sector. -/
def le16 (b : Nat → Nat) (o : Nat) : Nat := b o + 256 * b (o + 1)

/-- Little-endian 32-bit read at byte offset o of a sector. -/
def le32 (b : Nat → Nat) (o : Nat) : Nat :=
  b o + 256 * b (o + 1) + 65536 * b (o + 2) + 16777216 * b (o + 3)

/-- C tolower on a byte (ASCII, default locale). -/
def c_tolower (c : Nat) : Nat := if 65 ≤ c ∧ c ≤ 90 then c + 32 else c

/-- Read a C string out of a byte buffer of capacity n: the bytes before the
first NUL. -/
def c_str (b : Nat → Nat) (n : Nat) : List Nat :=
  ((List.range n).map b).takeWhile (fun c => c ≠ 0)

/-- strcasecmp(a, b) == 0 (ASCII case-insensitive string equality). -/
def str_ieq (a b : List Nat) : Bool := a.map c_tolower == b.map c_tolower

/-- The fat32_error_t enumeration.  fat32.h is missing from the repository;
the enumerators and their order are modelled from the spec's error taxonomy
(section 3) and sdcard.h's sd_error_t, with which fat32.c freely mixes values
(fat32_read_sector returns sd_read_block's sd_error_t as a fat32_error_t).
FAT32_OK = 0, FAT32_ERROR_NO_CARD = 1, and so on in declaration order. -/
inductive Err where
  | FAT32_OK
  | FAT32_ERROR_NO_CARD
  | FAT32_ERROR_INIT_FAILED
  | FAT32_ERROR_INVALID_FORMAT
  | FAT32_ERROR_READ_FAILED
  | FAT32_ERROR_WRITE_FAILED
  | FAT32_ERROR_NOT_MOUNTED
  | FAT32_ERROR_FILE_NOT_FOUND
  | FAT32_ERROR_INVALID_PATH
  | FAT32_ERROR_NOT_A_DIRECTORY
  | FAT32_ERROR_NOT_A_FILE
  | FAT32_ERROR_DIR_NOT_EMPTY
  | FAT32_ERROR_DIR_NOT_FOUND
  | FAT32_ERROR_DISK_FULL
  | FAT32_ERROR_FILE_EXISTS
  | FAT32_ERROR_INVALID_PARAMETER
  deriving DecidableEq, Repr

-- Constants from the missing fat32.h, modelled after sdcard.h's parallel
-- definitions (SECTOR_SIZE, FAT32_ENTRY_EOC, ATTR_*, MAX_FILENAME_LEN,
-- MAX_PATH_LEN) and the way fat32.c uses them.
def FAT32_SECTOR_SIZE : Nat := 512
def FAT32_FAT_ENTRY_EOC : Nat := 0x0FFFFFF8
def FAT32_ATTR_HIDDEN : Nat := 0x02
def FAT32_ATTR_SYSTEM : Nat := 0x04
def FAT32_ATTR_VOLUME_ID : Nat := 0x08
def FAT32_ATTR_DIRECTORY : Nat := 0x10
def FAT32_ATTR_ARCHIVE : Nat := 0x20
def FAT32_ATTR_LONG_NAME : Nat := 0x0F
def FAT32_DIR_ENTRY_END_MARKER : Nat := 0x00
def FAT32_DIR_ENTRY_FREE : Nat := 0xE5
def FAT32_DIR_LFN_PART_SIZE : Nat := 13
def FAT32_MAX_FILENAME_LEN : Nat := 255
def FAT32_MAX_PATH_LEN : Nat := 260

/-- fat32_boot_sector_t (the fields fat32.c reads; layout per sdcard.h's
fat32_boot_sector_t / the standard FAT32 BPB, used by parse_boot_sector). -/
structure BootSector where
  bytes_per_sector : Nat
  sectors_per_cluster : Nat
  reserved_sectors : Nat
  num_fats : Nat
  fat_size_16 : Nat
  total_sectors_32 : Nat
  fat_size_32 : Nat
  root_cluster : Nat
  fat32_info : Nat
  deriving DecidableEq, Repr

/-- fat32_file_t (modelled after sdcard.h's sd_file_t, matching fat32.c's
field uses). -/
structure Fat32File where
  is_open : Bool
  start_cluster : Nat
  current_cluster : Nat
  file_size : Nat
  position : Nat
  attributes : Nat
  deriving DecidableEq, Repr

/-- fat32_dir_t (modelled after sdcard.h's sd_dir_t, matching fat32.c's field
uses). -/
structure Fat32Dir where
  is_open : Bool
  start_cluster : Nat
  current_cluster : Nat
  position : Nat
  last_entry_read : Bool
  deriving DecidableEq, Repr

/-- fat32_entry_t, the surfaced directory entry (modelled after sdcard.h's
sd_dir_entry_t: char name[256] first, then size, date, time, start_cluster,
attr).  `name` holds the bytes of the C string stored in the 256-byte name
field. -/
structure Fat32Entry where
  name : List Nat
  size : Nat
  date : Nat
  time : Nat
  start_cluster : Nat
  attr : Nat
  deriving DecidableEq, Repr

/-- The driver's global state plus its block-device environment.
disk / card_present / sd_initialised model the sdcard.c layer (the SPI
transfer itself is abstracted: a read that passes sdcard.c's guards returns
the block's bytes); the remaining fields are the file-scope globals of
fat32.c lines 24-37. -/
structure St where
  disk : Nat → Nat → Nat
  card_present : Bool
  sd_initialised : Bool
  fat32_initialised : Bool
  fat32_mounted : Bool
  fat32_status : Err
  boot_sector : BootSector
  volume_start_block : Nat
  first_data_sector : Nat
  data_region_sectors : Nat
  cluster_count : Nat
  bytes_per_cluster : Nat
  current_dir_cluster : Nat

/-- sdcard.c sd_card_present: reads the active-low detect pin; true means a
card is inserted. -/
def sd_card_present (s : St) : Bool := s.card_present

/-- sdcard.c sd_read_block: fails INIT_FAILED when the SD layer is not
initialised, NO_CARD when no card is present; otherwise the 512-byte block is
transferred (the SPI exchange is abstracted as reading `disk`; the bounded
data-token timeout path is not modelled - no claim depends on it). -/
def sd_read_block (s : St) (block : Nat) : Except Err (Nat → Nat) :=
  if ¬ s.sd_initialised then .error .FAT32_ERROR_INIT_FAILED
  else if ¬ sd_card_present s then .error .FAT32_ERROR_NO_CARD
  else .ok (s.disk block)

/-- fat32.c cluster_to_sector (uint32 arithmetic, cluster - 2 may wrap). -/
def cluster_to_sector (s : St) (cluster : Nat) : Nat :=
  u32 (u32 (cluster + 4294967294) * s.boot_sector.sectors_per_cluster + s.first_data_sector)

/-- fat32.c fat32_read_sector: block-device read displaced by the volume
start block. -/
def fat32_read_sector (s : St) (sector : Nat) : Except Err (Nat → Nat) :=
  sd_read_block s (u32 (s.volume_start_block + sector))

/-- fat32.c read_cluster_fat_entry: locate the 4-byte little-endian FAT entry
of `cluster` and mask off the top 4 bits. -/
def read_cluster_fat_entry (s : St) (cluster : Nat) : Except Err Nat :=
  if cluster < 2 then .error .FAT32_ERROR_INVALID_PARAMETER
  else
    let fat_offset := u32 (cluster * 4)
    let fat_sector := u32 (s.boot_sector.reserved_sectors + fat_offset / FAT32_SECTOR_SIZE)
    let entry_offset := fat_offset % FAT32_SECTOR_SIZE
    match fat32_read_sector s fat_sector with
    | .error r => .error r
    | .ok sec => .ok (le32 sec entry_offset &&& 0x0FFFFFFF)

/-- fat32.c fat32_is_mbr: 0x55AA signature and at least one nonzero partition
type in the partition table. -/
def fat32_is_mbr (sec : Nat → Nat) : Bool :=
  if sec 510 ≠ 0x55 ∨ sec 511 ≠ 0xAA then false
  else (List.range 4).any (fun i => sec (446 + i * 16 + 4) ≠ 0)

/-- fat32.c fat32_is_fat_boot_sector: 0x55AA signature, a jump opcode, and a
plausible bytes-per-sector. -/
def fat32_is_fat_boot_sector (sec : Nat → Nat) : Bool :=
  if sec 510 ≠ 0x55 ∨ sec 511 ≠ 0xAA then false
  else if sec 0 ≠ 0xEB ∧ sec 0 ≠ 0xE9 then false
  else
    let bps := le16 sec 11
    if bps ≠ 512 ∧ bps ≠ 1024 ∧ bps ≠ 2048 ∧ bps ≠ 4096 then false
    else true

/-- The memcpy of the on-disk boot sector into the fat32_boot_sector_t
structure (fat32.c line 289), read field-wise at the packed struct's byte
offsets. -/
def parse_boot_sector (sec : Nat → Nat) : BootSector :=
  { bytes_per_sector := le16 sec 11
    sectors_per_cluster := sec 13
    reserved_sectors := le16 sec 14
    num_fats := sec 16
    fat_size_16 := le16 sec 22
    total_sectors_32 := le32 sec 32
    fat_size_32 := le32 sec 36
    root_cluster := le32 sec 44
    fat32_info := le16 sec 48 }

/-- fat32.c is_valid_fat32_boot_sector. -/
def is_valid_fat32_boot_sector (bs : BootSector) : Err :=
  if bs.bytes_per_sector ≠ FAT32_SECTOR_SIZE then .FAT32_ERROR_INVALID_FORMAT
  else if bs.sectors_per_cluster = 0 ∨ bs.sectors_per_cluster > 128 ∨
      (bs.sectors_per_cluster &&& (bs.sectors_per_cluster - 1)) ≠ 0 then
    .FAT32_ERROR_INVALID_FORMAT
  else if bs.num_fats = 0 ∨ bs.num_fats > 2 then .FAT32_ERROR_INVALID_FORMAT
  else if bs.reserved_sectors = 0 then .FAT32_ERROR_INVALID_FORMAT
  else if bs.fat_size_16 ≠ 0 ∨ bs.fat_size_32 = 0 then .FAT32_ERROR_INVALID_FORMAT
  else if bs.total_sectors_32 = 0 then .FAT32_ERROR_INVALID_FORMAT
  else .FAT32_OK

/-- The partition-table scan of fat32_mount (fat32.c lines 246-270): the
first of the four entries whose boot indicator is 0x00 or 0x80 and whose type
is 0x0B or 0x0C; yields its start LBA. -/
def find_fat32_partition (sec : Nat → Nat) : Option Nat :=
  (List.range 4).findSome? (fun i =>
    let base := 446 + i * 16
    if (sec base = 0 ∨ sec base = 0x80) ∧ (sec (base + 4) = 0x0B ∨ sec (base + 4) = 0x0C)
    then some (le32 sec (base + 8)) else none)

/-- fat32.c fat32_unmount: clears the mounted flag, the stored mount status
and the volume start block.  It does NOT touch current_dir_cluster or the
boot-sector copy. -/
def fat32_unmount (s : St) : St :=
  { s with fat32_mounted := false, fat32_status := .FAT32_OK, volume_start_block := 0 }

/-- The tail of fat32_mount from the boot-sector memcpy on (fat32.c lines
288-311): copy and validate the boot sector, derive the geometry, reject
FAT12/16 cluster counts, then set the current directory to the root and mark
the volume mounted.  (data_region_sectors is computed exactly as in the
source: total_sectors_32 - num_fats * fat_size_32, uint32, without
subtracting reserved sectors.) -/
def fat32_mount_finish (s : St) (sec : Nat → Nat) : Err × St :=
  let s := { s with boot_sector := parse_boot_sector sec }
  let v := is_valid_fat32_boot_sector s.boot_sector
  if v ≠ .FAT32_OK then (v, s)
  else
    let bs := s.boot_sector
    let s := { s with
      bytes_per_cluster := u32 (bs.sectors_per_cluster * FAT32_SECTOR_SIZE),
      first_data_sector := u32 (bs.reserved_sectors + bs.num_fats * bs.fat_size_32),
      data_region_sectors :=
        u32 (bs.total_sectors_32 + 4294967296 - u32 (bs.num_fats * bs.fat_size_32)) }
    let s := { s with cluster_count := s.data_region_sectors / bs.sectors_per_cluster }
    if s.cluster_count < 65525 then (.FAT32_ERROR_INVALID_FORMAT, s)
    else (.FAT32_OK, { s with current_dir_cluster := bs.root_cluster, fat32_mounted := true })

/-- fat32.c fat32_mount.  Note the statement at line 227:
`fat32_error_t result = sd_card_present();` - at that point the card is
present (the function returned NO_CARD above otherwise), so the bool `true`
converts to the integer 1, which as a fat32_error_t is FAT32_ERROR_NO_CARD;
the following `if (result != FAT32_OK) return result;` therefore always
returns FAT32_ERROR_NO_CARD before the boot sector is ever read.  Everything
from line 233 on is unreachable; it is still translated below, faithfully to
the source. -/
def fat32_mount (s : St) : Err × St :=
  if ¬ sd_card_present s then (.FAT32_ERROR_NO_CARD, fat32_unmount s)
  else if s.fat32_mounted then (.FAT32_OK, s)
  else
    let result := if sd_card_present s then Err.FAT32_ERROR_NO_CARD else Err.FAT32_OK
    if result ≠ .FAT32_OK then (result, s)
    else
      match sd_read_block s 0 with
      | .error r => (r, s)
      | .ok sec0 =>
        if fat32_is_mbr sec0 then
          -- volume_start_block = 0, then the partition scan
          let s := { s with volume_start_block := 0 }
          match find_fat32_partition sec0 with
          | none => (.FAT32_ERROR_INVALID_FORMAT, s)
          | some lba =>
            let s := { s with volume_start_block := lba }
            match sd_read_block s lba with
            | .error r => (r, s)
            | .ok sec =>
              -- the `volume_start_block == 0` no-partition check after the loop
              if lba = 0 then (.FAT32_ERROR_INVALID_FORMAT, s)
              else fat32_mount_finish s sec
        else if fat32_is_fat_boot_sector sec0 then
          fat32_mount_finish { s with volume_start_block := 0 } sec0
        else (.FAT32_ERROR_INVALID_FORMAT, s)

/-- fat32.c fat32_is_mounted. -/
def fat32_is_mounted (s : St) : Bool := s.fat32_mounted

/-- fat32.c fat32_is_ready, exactly as written at line 327:
`fat32_initialised && fat32_mounted && !sd_card_present()` - it demands that
the card NOT be present, and fat32_initialised is never assigned true
anywhere in the repository. -/
def fat32_is_ready (s : St) : Bool :=
  s.fat32_initialised && s.fat32_mounted && !(sd_card_present s)

/-- fat32.c fat32_get_status. -/
def fat32_get_status (s : St) : Err := s.fat32_status

/-- fat32.c fat32_init: resets the file-system globals.  Faithfully to the
source, it does NOT set fat32_initialised (despite that variable's comment);
the repeating-timer registration is not part of the state model. -/
def fat32_init (s : St) : St :=
  { s with fat32_mounted := false, fat32_status := .FAT32_OK, volume_start_block := 0,
           first_data_sector := 0, data_region_sectors := 0, cluster_count := 0,
           bytes_per_cluster := 0, current_dir_cluster := 0 }

/-- fat32.c on_sd_card_detect, the 500 ms card-presence poll.  The static
delay_count is threaded explicitly; the C timer callback's constant `true`
return (keep the timer running) is dropped. -/
def on_sd_card_detect (s : St) (delay_count : Nat) : St × Nat :=
  if ¬ sd_card_present s ∧ fat32_is_mounted s then (fat32_unmount s, 2)
  else if sd_card_present s ∧ delay_count > 0 then (s, delay_count - 1)
  else if sd_card_present s ∧ ¬ fat32_is_mounted s ∧ s.fat32_status = .FAT32_OK ∧
      delay_count ≤ 0 then
    let r := fat32_mount s
    ({ r.2 with fat32_status := r.1 }, 2)
  else (s, delay_count)

/-- fat32.c convert_83_to_filename: lower-cased base name (stopping at the
first space), then a dot and the lower-cased extension characters when any
extension byte is non-blank. -/
def convert_83_to_filename (name83 : List Nat) : List Nat :=
  let namePart := ((name83.take 8).takeWhile (fun c => c ≠ 32)).map c_tolower
  let extChars := ((name83.drop 8).take 3).filter (fun c => c ≠ 32)
  if extChars = [] then namePart
  else namePart ++ [46] ++ extChars.map c_tolower

/-- fat32.c utf16_to_utf8 (ASCII only; everything else becomes a question
mark). -/
def utf16_to_utf8 (c : Nat) : Nat := if c < 0x80 then c else 63

/-- fat32.c lfn_checksum: the unsigned-char rotate-right-and-add checksum
over the 11 bytes of the raw 8.3 name. -/
def lfn_checksum (name83 : List Nat) : Nat :=
  (name83.take 11).foldl
    (fun sum c => ((if sum % 2 = 1 then 0x80 else 0) + sum / 2 + c) % 256) 0

/-- The 13 name characters of one VFAT long-name entry, in order (name1[5] at
byte offsets 1..9, name2[6] at 14..24, name3[2] at 28..30, each a UTF-16
little-endian code unit), as converted by lfn_entry_into_buffer. -/
def lfn_chars (sec : Nat → Nat) (off : Nat) : List Nat :=
  [1, 3, 5, 7, 9, 14, 16, 18, 20, 22, 24, 28, 30].map
    (fun k => utf16_to_utf8 (le16 sec (off + k)))

/-- fat32.c lfn_entry_into_buffer applied at the fragment's slot: writes the
13 converted characters into the long-filename buffer at byte `base`. -/
def lfn_write_fragment (lfn : Nat → Nat) (base : Nat) (cs : List Nat) : Nat → Nat :=
  fun i => if base ≤ i ∧ i < base + 13 then cs.getD (i - base) 0 else lfn i

/-- fuel used for the directory / FAT traversal loops; the C loops are
unbounded (a cyclic FAT chain would hang them), so the model bounds them with
a fuel large enough never to be hit on well-formed data. -/
def dirFuel : Nat := 2097152

/-- The scanning loop of fat32_dir_read (fat32.c lines 1022-1104): runs while
no entry has been surfaced (the out-parameter's name is still empty) and the
end of the directory has not been reached.  Each step reads the sector
holding the next 32-byte entry, classifies it (end marker / VFAT long-name
fragment / deleted / normal), accumulates long-filename fragments keyed by
sequence number with their checksum, surfaces a normal entry under the
reconstructed long name when the pending checksum matches and under the
decoded 8.3 name otherwise, then advances 32 bytes and follows the FAT chain
across cluster boundaries.  (The sector-read cache `read_sector` is dropped:
the disk is immutable during the call, so re-reads are transparent.  The C
code initialises only long_filename[0]; the model starts from an all-zero
buffer, observably different only for malformed directories whose first
fragment lacks the 0x40 lead marker.) -/
def fat32_dir_read_loop (s : St) : Nat → Fat32Dir → Fat32Entry → (Nat → Nat) → Nat →
    Err × Fat32Dir × Fat32Entry
  | 0, dir, e, _, _ => (.FAT32_ERROR_READ_FAILED, dir, e)
  | fuel + 1, dir, e, lfn, expected =>
    if dir.last_entry_read ∨ e.name ≠ [] then (.FAT32_OK, dir, e)
    else
      let cluster_offset := dir.position % s.bytes_per_cluster
      let sector_in_cluster := cluster_offset / FAT32_SECTOR_SIZE
      let sector := u32 (cluster_to_sector s dir.current_cluster + sector_in_cluster)
      match fat32_read_sector s sector with
      | .error r => (r, dir, e)
      | .ok sec =>
        let off := dir.position % FAT32_SECTOR_SIZE
        let b0 := sec off
        let attr := sec (off + 11)
        let step :=
          if b0 = FAT32_DIR_ENTRY_END_MARKER then
            ({ dir with last_entry_read := true }, e, lfn, expected)
          else if attr = FAT32_ATTR_LONG_NAME then
            let seq := sec off
            let checksum := sec (off + 13)
            let start := if seq &&& 0x40 ≠ 0 then ((fun _ => 0 : Nat → Nat), checksum)
              else (lfn, expected)
            let lfn2 :=
              if checksum = start.2 then
                lfn_write_fragment start.1 (((seq &&& 0x3F) - 1) * FAT32_DIR_LFN_PART_SIZE)
                  (lfn_chars sec off)
              else start.1
            (dir, e, lfn2, start.2)
          else if b0 ≠ FAT32_DIR_ENTRY_FREE then
            let name83 := (List.range 11).map (fun i => sec (off + i))
            let checksum := lfn_checksum name83
            let name :=
              if lfn 0 ≠ 0 ∧ expected = checksum then c_str lfn 256
              else convert_83_to_filename name83
            (dir,
             { name := name, attr := attr,
               start_cluster := le16 sec (off + 20) <<< 16 ||| le16 sec (off + 26),
               size := le32 sec (off + 28),
               date := le16 sec (off + 24), time := le16 sec (off + 22) },
             lfn, expected)
          else (dir, e, lfn, expected)
        let dir2 := { step.1 with position := step.1.position + 32 }
        let e2 := step.2.1
        if dir2.position % s.bytes_per_cluster = 0 then
          match read_cluster_fat_entry s dir2.current_cluster with
          | .error r => (r, dir2, e2)
          | .ok next =>
            if next ≥ FAT32_FAT_ENTRY_EOC then
              (.FAT32_OK, { dir2 with last_entry_read := true }, e2)
            else
              fat32_dir_read_loop s fuel { dir2 with current_cluster := next } e2
                step.2.2.1 step.2.2.2
        else fat32_dir_read_loop s fuel dir2 e2 step.2.2.1 step.2.2.2

/-- fat32.c fat32_dir_read.  `e` is the caller's fat32_entry_t buffer (the C
out-parameter): the not-ready guard returns the stored mount status leaving
it untouched; otherwise its first 32 bytes are cleared (memset with
sizeof(fat32_dir_entry_t) = 32, which empties the name string) and the scan
loop runs. -/
def fat32_dir_read (s : St) (dir : Fat32Dir) (e : Fat32Entry) : Err × Fat32Dir × Fat32Entry :=
  if ¬ fat32_is_ready s then (s.fat32_status, dir, e)
  else if ¬ dir.is_open then (.FAT32_ERROR_READ_FAILED, dir, e)
  else
    let e := { e with name := [] }
    if dir.last_entry_read then (.FAT32_OK, dir, e)
    else fat32_dir_read_loop s dirFuel dir e (fun _ => 0) 0

/-- fat32.c fat32_dir_close: zero the cursor if it is open. -/
def fat32_dir_close (dir : Fat32Dir) : Err × Fat32Dir :=
  if dir.is_open then
    (.FAT32_OK, { is_open := false, start_cluster := 0, current_cluster := 0,
                  position := 0, last_entry_read := false })
  else (.FAT32_OK, dir)

/-- A freshly-opened cursor over the directory starting at `cluster`, as the
C code builds temporary fat32_dir_t values. -/
def dir_cursor (cluster : Nat) : Fat32Dir :=
  { is_open := true, start_cluster := cluster, current_cluster := cluster,
    position := 0, last_entry_read := false }

/-- The zero fat32_entry_t, the model's stand-in for entry buffers the C code
leaves uninitialised on the stack but always overwrites via fat32_dir_read
before reading (when the surrounding guards pass). -/
def zero_entry : Fat32Entry :=
  { name := [], size := 0, date := 0, time := 0, start_cluster := 0, attr := 0 }

/-- The `while (fat32_dir_read(&dir, &entry) == FAT32_OK && entry.name[0])`
scan pattern shared by fat32_dir_open, fat32_get_volume_name and
fat32_get_current_dir's parent-name search: returns the first surfaced entry
satisfying p, or none when the directory ends or a read fails. -/
def dir_scan_find (s : St) (p : Fat32Entry → Bool) :
    Nat → Fat32Dir → Fat32Entry → Option Fat32Entry
  | 0, _, _ => none
  | fuel + 1, td, e =>
    match fat32_dir_read s td e with
    | (.FAT32_OK, td2, e2) =>
      if e2.name = [] then none
      else if p e2 then some e2
      else dir_scan_find s p fuel td2 e2
    | _ => none

/-- strtok_r tokenization on '/' after the strncpy into the 260-byte
path_copy buffer (which truncates to 259 characters; a leading slash was
already skipped by the caller). -/
def tokenize (path_copy : List Nat) : List (List Nat) :=
  (path_copy.splitOn 47).filter (fun t => t ≠ [])

/-- The per-component loop of fat32_dir_open (fat32.c lines 956-981): for
each token scan the current cluster's entries for a directory whose name
matches case-insensitively, descending into it (a stored start cluster of 0
means the root). -/
def fat32_dir_open_loop (s : St) : List (List Nat) → Nat → Err × Fat32Dir
  | [], cluster => (.FAT32_OK, dir_cursor cluster)
  | token :: rest, cluster =>
    match dir_scan_find s
        (fun e => (e.attr &&& FAT32_ATTR_DIRECTORY ≠ 0) ∧ str_ieq e.name token)
        dirFuel (dir_cursor cluster) zero_entry with
    | some e =>
      fat32_dir_open_loop s rest
        (if e.start_cluster = 0 then s.boot_sector.root_cluster else e.start_cluster)
    | none => (.FAT32_ERROR_INVALID_PATH, dir_cursor cluster)

/-- fat32.c fat32_dir_open.  `dir0` is the caller's cursor buffer, returned
untouched on the early error paths (the C code has not yet written it
there). -/
def fat32_dir_open (s : St) (dir0 : Fat32Dir) (path : List Nat) : Err × Fat32Dir :=
  if ¬ fat32_is_ready s then (s.fat32_status, dir0)
  else if path.length > FAT32_MAX_PATH_LEN then (.FAT32_ERROR_INVALID_PATH, dir0)
  else
    let root := s.boot_sector.root_cluster
    if path = [] ∨ ((path = [46] ∨ path = [46, 46]) ∧ s.current_dir_cluster = root) then
      (.FAT32_OK, dir_cursor s.current_dir_cluster)
    else
      let cluster := if path.headD 0 = 47 then root else s.current_dir_cluster
      let path_copy := (if path.headD 0 = 47 then path.tail else path).take
        (FAT32_MAX_PATH_LEN - 1)
      match fat32_dir_open_loop s (tokenize path_copy) cluster with
      | (.FAT32_OK, d) => (.FAT32_OK, d)
      | (r, _) => (r, dir0)

/-- The memcpy at fat32.c line 575:
`memcpy(dir_entry, &entry, sizeof(fat32_dir_entry_t))` copies 32 bytes of a
272-byte fat32_entry_t, i.e. only the first 32 bytes of the name field - the
size, date, time, start_cluster and attr fields of the destination keep
whatever the caller had there.  A source name shorter than 32 bytes carries
its NUL across; a longer one leaves the destination string continuing into
the destination's old bytes. -/
def memcpy_dir_entry_size (dst src : Fat32Entry) : Fat32Entry :=
  { dst with name :=
      if src.name.length < 32 then src.name else src.name.take 32 ++ dst.name.drop 32 }

/-- Result of scanning one directory for one path component inside
find_directory_entry. -/
inductive ScanHit where
  | terminal (e : Fat32Entry)
  | descend (cluster : Nat)
  | nomatch
  deriving Repr

/-- The inner scan of find_directory_entry (fat32.c lines 566-587): look for
a case-insensitive name match; on the last component any match is returned,
on an intermediate component only a directory match descends (the scan keeps
going past a non-directory match, exactly as the C loop does). -/
def fde_scan (s : St) (token : List Nat) (terminal : Bool) :
    Nat → Fat32Dir → Fat32Entry → ScanHit
  | 0, _, _ => .nomatch
  | fuel + 1, td, e =>
    match fat32_dir_read s td e with
    | (.FAT32_OK, td2, e2) =>
      if e2.name = [] then .nomatch
      else if str_ieq e2.name token then
        if terminal then .terminal e2
        else if e2.attr &&& FAT32_ATTR_DIRECTORY ≠ 0 then
          .descend (if e2.start_cluster = 0 then s.boot_sector.root_cluster
            else e2.start_cluster)
        else fde_scan s token terminal fuel td2 e2
      else fde_scan s token terminal fuel td2 e2
    | _ => .nomatch

/-- The outer token loop of find_directory_entry (fat32.c lines 555-594).
`de` is the caller's out-parameter buffer, updated only through the partial
32-byte memcpy on a terminal match. -/
def fde_loop (s : St) : List (List Nat) → Nat → Fat32Entry → Err × Fat32Entry
  | [], _, de => (.FAT32_ERROR_FILE_NOT_FOUND, de)
  | token :: rest, cluster, de =>
    match fde_scan s token rest.isEmpty dirFuel (dir_cursor cluster) zero_entry with
    | .terminal e => (.FAT32_OK, memcpy_dir_entry_size de e)
    | .descend c => fde_loop s rest c de
    | .nomatch =>
      if rest ≠ [] then (.FAT32_ERROR_INVALID_PATH, de)
      else (.FAT32_ERROR_FILE_NOT_FOUND, de)

/-- fat32.c find_directory_entry: resolve a path (absolute from the root, or
relative to the tracked current directory) to a directory entry, copying the
result into the caller's buffer through the (partial, 32-byte) memcpy. -/
def find_directory_entry (s : St) (de : Fat32Entry) (path : List Nat) : Err × Fat32Entry :=
  if path = [] then (.FAT32_ERROR_INVALID_PARAMETER, de)
  else
    let cluster := if path.headD 0 = 47 then s.boot_sector.root_cluster
      else s.current_dir_cluster
    let path_copy := (if path.headD 0 = 47 then path.tail else path).take
      (FAT32_MAX_PATH_LEN - 1)
    fde_loop s (tokenize path_copy) cluster de

/-- fat32.c fat32_file_open.  `file` is the caller's handle buffer; `junk`
models the indeterminate stack contents of the function's local
fat32_entry_t, which matter because find_directory_entry's 32-byte memcpy
never writes the size/cluster/attr fields it is later read from. -/
def fat32_file_open (s : St) (file : Fat32File) (filename : List Nat) (junk : Fat32Entry) :
    Err × Fat32File :=
  if ¬ fat32_is_ready s then (s.fat32_status, file)
  else
    let file0 : Fat32File :=
      { is_open := false, start_cluster := 0, current_cluster := 0, file_size := 0,
        position := 0, attributes := 0 }
    match find_directory_entry s junk filename with
    | (.FAT32_OK, entry) =>
      if entry.attr &&& FAT32_ATTR_DIRECTORY ≠ 0 ∨ entry.attr &&& FAT32_ATTR_VOLUME_ID ≠ 0 then
        (.FAT32_ERROR_NOT_A_FILE, file0)
      else
        (.FAT32_OK,
         { is_open := true, start_cluster := entry.start_cluster,
           current_cluster := entry.start_cluster, file_size := entry.size,
           position := 0, attributes := entry.attr })
    | (r, _) => (r, file0)

/-- fat32.c fat32_file_create: placeholder, InvalidParameter, nothing
touched. -/
def fat32_file_create (s : St) (file : Fat32File) (filename : List Nat) :
    Err × St × Fat32File :=
  (.FAT32_ERROR_INVALID_PARAMETER, s, file)

/-- fat32.c fat32_file_close: zero the handle if it is open. -/
def fat32_file_close (file : Fat32File) : Err × Fat32File :=
  if file.is_open then
    (.FAT32_OK, { is_open := false, start_cluster := 0, current_cluster := 0,
                  file_size := 0, position := 0, attributes := 0 })
  else (.FAT32_OK, file)

/-- The copy loop of fat32_file_read (fat32.c lines 687-723): per iteration,
map the position to (sector within cluster, byte within sector), read that
sector, copy up to the end of the sector or of the request, advance the
position, and cross into the next FAT chain cluster only when the position
hits a cluster boundary with bytes still wanted - ending the loop (a partial
read, not an error) on end-of-chain or a FAT read failure.  A mid-loop sector
read failure returns that error with the out-parameter still holding the 0
stored before the loop.  Fuel: each iteration copies at least one byte, so
size + 1 can never be exhausted. -/
def fat32_file_read_loop (s : St) (size : Nat) :
    Nat → Fat32File → Nat → List Nat → Err × Fat32File × Option Nat × List Nat
  | 0, file, _, acc => (.FAT32_ERROR_READ_FAILED, file, none, acc)
  | fuel + 1, file, total, acc =>
    if total ≥ size then (.FAT32_OK, file, some total, acc)
    else
      let cluster_offset := file.position % s.bytes_per_cluster
      let sector_in_cluster := cluster_offset / FAT32_SECTOR_SIZE
      let byte_in_sector := cluster_offset % FAT32_SECTOR_SIZE
      let sector := u32 (cluster_to_sector s file.current_cluster + sector_in_cluster)
      match fat32_read_sector s sector with
      | .error r => (r, file, some 0, acc)
      | .ok sec =>
        let bytes_to_copy := min (FAT32_SECTOR_SIZE - byte_in_sector) (size - total)
        let acc := acc ++ (List.range bytes_to_copy).map (fun i => sec (byte_in_sector + i))
        let total := total + bytes_to_copy
        let file := { file with position := file.position + bytes_to_copy }
        if file.position % s.bytes_per_cluster = 0 ∧ total < size then
          match read_cluster_fat_entry s file.current_cluster with
          | .error _ => (.FAT32_OK, file, some total, acc)
          | .ok next =>
            if next ≥ FAT32_FAT_ENTRY_EOC then (.FAT32_OK, file, some total, acc)
            else fat32_file_read_loop s size fuel { file with current_cluster := next }
              total acc
        else fat32_file_read_loop s size fuel file total acc

/-- fat32.c fat32_file_read.  Returns (status, updated handle, the value left
in the *bytes_read out-parameter - none when the function returned before the
initial store to it - and the bytes copied into the caller's buffer). -/
def fat32_file_read (s : St) (file : Fat32File) (size : Nat) :
    Err × Fat32File × Option Nat × List Nat :=
  if ¬ file.is_open then (.FAT32_ERROR_INVALID_PARAMETER, file, none, [])
  else if ¬ fat32_is_ready s then (s.fat32_status, file, none, [])
  else if file.position ≥ file.file_size then (.FAT32_OK, file, some 0, [])
  else
    let remaining := file.file_size - file.position
    let size := min size remaining
    fat32_file_read_loop s size (size + 1) file 0 []

/-- fat32.c fat32_file_write: placeholder, InvalidParameter, nothing
touched. -/
def fat32_file_write (s : St) (file : Fat32File) (data : List Nat) : Err × St × Fat32File :=
  (.FAT32_ERROR_INVALID_PARAMETER, s, file)

/-- fat32.c fat32_file_seek: clamp the position to the file size, then set
the current cluster to start_cluster + position / bytes_per_cluster - plain
uint32 arithmetic that assumes a contiguous cluster run; the FAT chain is
never consulted (the source's own comment calls this "simplified").  With an
unmounted volume bytes_per_cluster is 0 and the C division is undefined
behaviour; the model's Nat division yields 0 there. -/
def fat32_file_seek (s : St) (file : Fat32File) (position : Nat) : Err × Fat32File :=
  if ¬ file.is_open then (.FAT32_ERROR_INVALID_PARAMETER, file)
  else
    let position := if position > file.file_size then file.file_size else position
    let cluster_num := position / s.bytes_per_cluster
    (.FAT32_OK, { file with
                  position := position,
                  current_cluster := u32 (file.start_cluster + cluster_num) })

/-- fat32.c fat32_file_tell. -/
def fat32_file_tell (file : Fat32File) : Nat := file.position

/-- fat32.c fat32_file_size. -/
def fat32_file_size (file : Fat32File) : Nat := file.file_size

/-- fat32.c fat32_file_eof. -/
def fat32_file_eof (file : Fat32File) : Bool := file.position ≥ file.file_size

/-- fat32.c fat32_file_delete: placeholder, InvalidParameter, nothing
touched. -/
def fat32_file_delete (s : St) (filename : List Nat) : Err × St :=
  (.FAT32_ERROR_INVALID_PARAMETER, s)

/-- fat32.c fat32_dir_create: placeholder, InvalidParameter, nothing
touched. -/
def fat32_dir_create (s : St) (dir : Fat32Dir) (dirname : List Nat) : Err × St × Fat32Dir :=
  (.FAT32_ERROR_INVALID_PARAMETER, s, dir)

/-- fat32.c fat32_dir_delete: placeholder, InvalidParameter, nothing
touched. -/
def fat32_dir_delete (s : St) (dir : Fat32Dir) (dirname : List Nat) : Err × St × Fat32Dir :=
  (.FAT32_ERROR_INVALID_PARAMETER, s, dir)

/-- fat32.c fat32_set_current_dir: resolve the path with fat32_dir_open and,
on success, store the resolved start cluster as the tracked current
directory.  (The C passes an uninitialised fat32_dir_t; the model passes the
zero cursor, whose is_open = false reproduces the "directory not open" path
when dir_open returns success without having written the cursor.) -/
def fat32_set_current_dir (s : St) (path : List Nat) : Err × St :=
  match fat32_dir_open s
      { is_open := false, start_cluster := 0, current_cluster := 0, position := 0,
        last_entry_read := false } path with
  | (.FAT32_OK, dir) =>
    if ¬ dir.is_open then (.FAT32_ERROR_INVALID_PATH, s)
    else (.FAT32_OK, { s with current_dir_cluster := dir.start_cluster })
  | (r, _) => (r, s)

/-- The zero-entry count of one FAT sector (fat32.c lines 375-382): the 128
4-byte entries whose low 28 bits are zero. -/
def fat_count_zero_entries (sec : Nat → Nat) : Nat :=
  ((List.range 128).filter (fun i => le32 sec (4 * i) &&& 0x0FFFFFFF = 0)).length

/-- The fallback full-FAT scan of fat32_get_free_space (fat32.c lines
367-383): read every FAT sector and count the zero entries, propagating read
errors. -/
def fat_free_scan (s : St) : List Nat → Nat → Except Err Nat
  | [], acc => .ok acc
  | i :: rest, acc =>
    match fat32_read_sector s (u32 (s.boot_sector.reserved_sectors + i)) with
    | .error r => .error r
    | .ok sec => fat_free_scan s rest (acc + fat_count_zero_entries sec)

/-- fat32.c fat32_get_free_space: read the FSInfo sector; when its three
signatures are valid and its free count is neither the 0xFFFFFFFF sentinel
nor above the volume's cluster count, report free_count * bytes_per_cluster;
otherwise fall back to the full-FAT zero-entry scan.  The FSInfo fields are
read at the packed fat32_fsinfo_t offsets (lead 0, struct 484, free 488,
trail 508). -/
def fat32_get_free_space (s : St) : Err × Option Nat :=
  if ¬ fat32_is_ready s then (s.fat32_status, none)
  else
    match fat32_read_sector s s.boot_sector.fat32_info with
    | .error r => (r, none)
    | .ok sec =>
      if le32 sec 0 = 0x41615252 ∧ le32 sec 484 = 0x61417272 ∧ le32 sec 508 = 0xAA550000 ∧
          le32 sec 488 ≠ 0xFFFFFFFF ∧ le32 sec 488 ≤ s.cluster_count then
        (.FAT32_OK, some (le32 sec 488 * s.bytes_per_cluster))
      else
        match fat_free_scan s (List.range s.boot_sector.fat_size_32) 0 with
        | .error r => (r, none)
        | .ok n => (.FAT32_OK, some (n * s.bytes_per_cluster))

/-- fat32.c fat32_get_total_space: total_sectors_32 * 512. -/
def fat32_get_total_space (s : St) : Err × Option Nat :=
  if ¬ fat32_is_ready s then (s.fat32_status, none)
  else (.FAT32_OK, some (s.boot_sector.total_sectors_32 * FAT32_SECTOR_SIZE))

/-- fat32.c fat32_get_volume_name: scan the root directory for an entry
carrying the volume-id attribute; copy its name (strncpy, name_len - 1
characters) or return the empty string when none is found.  The name and
length parameter checks precede the ready guard. -/
def fat32_get_volume_name (s : St) (name_len : Nat) : Err × Option (List Nat) :=
  if name_len < 12 then (.FAT32_ERROR_INVALID_PARAMETER, none)
  else if ¬ fat32_is_ready s then (s.fat32_status, none)
  else
    match dir_scan_find s (fun e => e.attr &&& FAT32_ATTR_VOLUME_ID ≠ 0) dirFuel
        (dir_cursor s.boot_sector.root_cluster) zero_entry with
    | some e => (.FAT32_OK, some (e.name.take (name_len - 1)))
    | none => (.FAT32_OK, some [])

/-- The dot-dot search of fat32_get_current_dir (fat32.c lines 846-859): scan
the directory for a ".." entry with the directory attribute, giving up after
more than two non-matching surfaced entries; yields the parent cluster (0
meaning the root). -/
def gcd_find_dotdot (s : St) : Nat → Fat32Dir → Fat32Entry → Nat → Option Nat
  | 0, _, _, _ => none
  | fuel + 1, td, e, cnt =>
    match fat32_dir_read s td e with
    | (.FAT32_OK, td2, e2) =>
      if e2.name = [] then none
      else if e2.attr &&& FAT32_ATTR_DIRECTORY ≠ 0 ∧ e2.name = [46, 46] then
        some (if e2.start_cluster = 0 then s.boot_sector.root_cluster else e2.start_cluster)
      else if cnt + 1 > 2 then none
      else gcd_find_dotdot s fuel td2 e2 (cnt + 1)
    | _ => none

/-- One upward step of fat32_get_current_dir's walk (fat32.c lines 831-892):
find the parent via "..", then search the parent for the directory entry
whose start cluster is the child (skipping "." and ".."), yielding the
component name (strncpy-truncated to 255). -/
def gcd_step (s : St) (cluster : Nat) : Option (Nat × List Nat) :=
  match gcd_find_dotdot s dirFuel (dir_cursor cluster) zero_entry 0 with
  | none => none
  | some parent =>
    match dir_scan_find s
        (fun e => e.attr &&& FAT32_ATTR_DIRECTORY ≠ 0 ∧ e.start_cluster = cluster ∧
          e.name ≠ [46] ∧ e.name ≠ [46, 46])
        dirFuel (dir_cursor parent) zero_entry with
    | none => none
    | some e => some (parent, e.name.take FAT32_MAX_FILENAME_LEN)

/-- The upward walk of fat32_get_current_dir: collect component names,
nearest directory first, stopping at the root, at depth 16, or when a step
fails (the C breaks and returns the partial path). -/
def gcd_walk (s : St) : Nat → Nat → List (List Nat) → List (List Nat)
  | 0, _, acc => acc
  | fuel + 1, cluster, acc =>
    if cluster = s.boot_sector.root_cluster then acc
    else
      match gcd_step s cluster with
      | none => acc
      | some (parent, comp) => gcd_walk s fuel parent (acc ++ [comp])

/-- fat32.c fat32_get_current_dir: parameter check, ready guard, the root
special case, then the upward walk; the path is assembled outermost component
first, each preceded by a slash, "/" when nothing was collected, truncated to
the buffer (strncat) length. -/
def fat32_get_current_dir (s : St) (path_len : Nat) : Err × Option (List Nat) :=
  if path_len < FAT32_MAX_PATH_LEN then (.FAT32_ERROR_INVALID_PARAMETER, none)
  else if ¬ fat32_is_ready s then (s.fat32_status, none)
  else if s.current_dir_cluster = s.boot_sector.root_cluster then (.FAT32_OK, some [47])
  else
    let comps := gcd_walk s 16 s.current_dir_cluster []
    let path := (comps.reverse.map (fun c => 47 :: c)).flatten.take (path_len - 1)
    (.FAT32_OK, some (if path = [] then [47] else path))

/-- The claim C5 comparison point, built from the source's own FAT walker:
the cluster reached from `cluster` by following n links of the FAT chain via
read_cluster_fat_entry; none if the chain ends (an entry at or above the
end-of-chain sentinel) or a read fails before n links are taken. -/
def fat_chain_walk (s : St) (cluster : Nat) : Nat → Option Nat
  | 0 => some cluster
  | n + 1 =>
    match read_cluster_fat_entry s cluster with
    | .error _ => none
    | .ok next =>
      if next ≥ FAT32_FAT_ENTRY_EOC then none else fat_chain_walk s next n

/-!
Concrete states used by the theorems below.

`diskM` is a small FAT32 volume image (superfloppy layout, volume start block
0) matching `bsM`: reserved_sectors = 32, one FAT of 16 sectors (so the first
data sector is 48), one sector per cluster, root directory at cluster 2.
Block 1 is a valid FSInfo sector advertising 1234 free clusters; block 32 is
the first FAT sector (the entry of cluster 2 links to cluster 9, the entry of
cluster 3 is end-of-chain); block 48 (root directory, cluster 2) holds one
normal 8.3 entry "HELLO   TXT" (archive attribute, start cluster 3, size 5);
block 49 (cluster 3) holds the bytes "HELLO".
-/

def diskM : Nat → Nat → Nat := fun blk off =>
  if blk = 1 then
    if off = 0 ∨ off = 1 then 0x52 else if off = 2 then 0x61 else if off = 3 then 0x41
    else if off = 484 ∨ off = 485 then 0x72
    else if off = 486 then 0x41 else if off = 487 then 0x61
    else if off = 488 then 0xD2 else if off = 489 then 4
    else if off = 510 then 0x55 else if off = 511 then 0xAA else 0
  else if blk = 32 then
    if off = 8 then 9
    else if off = 12 then 0xF8 else if off = 13 ∨ off = 14 then 0xFF
    else if off = 15 then 0x0F else 0
  else if blk = 48 then
    if off = 0 then 72 else if off = 1 then 69 else if off = 2 ∨ off = 3 then 76
    else if off = 4 then 79 else if off = 5 ∨ off = 6 ∨ off = 7 then 32
    else if off = 8 then 84 else if off = 9 then 88 else if off = 10 then 84
    else if off = 11 then 32 else if off = 26 then 3 else if off = 28 then 5 else 0
  else if blk = 49 then
    if off = 0 then 72 else if off = 1 then 69 else if off = 2 ∨ off = 3 then 76
    else if off = 4 then 79 else 0
  else 0

/-- The boot-sector copy matching diskM's geometry. -/
def bsM : BootSector :=
  { bytes_per_sector := 512, sectors_per_cluster := 1, reserved_sectors := 32,
    num_fats := 1, fat_size_16 := 0, total_sectors_32 := 100000, fat_size_32 := 16,
    root_cluster := 2, fat32_info := 1 }

/-- A mounted driver state over diskM with the card inserted: the SD layer is
initialised, fat32_initialised is granted as true (the repository never sets
it, but the missing initialisation code is presumed to), the volume is
mounted with status FAT32_OK (exactly what on_sd_card_detect stores after a
successful mount), and the derived geometry matches bsM
(first_data_sector = 32 + 1*16 = 48, data_region_sectors = 100000 - 16,
cluster_count = 99984 >= 65525, bytes_per_cluster = 512, current directory at
the root). -/
def stMnt : St :=
  { disk := diskM, card_present := true, sd_initialised := true,
    fat32_initialised := true, fat32_mounted := true, fat32_status := .FAT32_OK,
    boot_sector := bsM, volume_start_block := 0, first_data_sector := 48,
    data_region_sectors := 99984, cluster_count := 99984, bytes_per_cluster := 512,
    current_dir_cluster := 2 }

/-- The bytes of the C string "hello.txt". -/
def hello_txt : List Nat := [104, 101, 108, 108, 111, 46, 116, 120, 116]

/-- A closed (zeroed) file handle, the caller's buffer before a successful
open. -/
def f_closed : Fat32File :=
  { is_open := false, start_cluster := 0, current_cluster := 0, file_size := 0,
    position := 0, attributes := 0 }

/-- A closed (zeroed) directory cursor. -/
def d_closed : Fat32Dir :=
  { is_open := false, start_cluster := 0, current_cluster := 0, position := 0,
    last_entry_read := false }

/-- An open handle on the "hello.txt"-like file of diskM, as fat32_file_open
would have built it (start cluster 3, size 100 for the read test, position
0). -/
def f_open_h : Fat32File :=
  { is_open := true, start_cluster := 3, current_cluster := 3, file_size := 100,
    position := 0, attributes := 32 }

/-- An open handle whose FAT chain is fragmented: it starts at cluster 2,
whose FAT entry on diskM links to cluster 9 (not 3). -/
def f_frag : Fat32File :=
  { is_open := true, start_cluster := 2, current_cluster := 2, file_size := 2000,
    position := 0, attributes := 32 }

/-- An open cursor on diskM's root directory. -/
def d_root : Fat32Dir := dir_cursor 2

/-- The state after fat32_init over stMnt: unmounted, status FAT32_OK, geometry
cleared, card still inserted. -/
def st1 : St := fat32_init stMnt

/-- A disk whose sector 0 is a superfloppy FAT32 boot sector with
bytes-per-sector 1024 (jump opcode 0xEB, 0x55AA signature): mount must
reject it with InvalidFormat per the claim. -/
def disk3 : Nat → Nat → Nat := fun blk off =>
  if blk = 0 then
    if off = 0 then 0xEB else if off = 12 then 4
    else if off = 510 then 0x55 else if off = 511 then 0xAA else 0
  else 0

/-- An unmounted state with the card inserted over disk3, status FAT32_OK -
the state in which fat32_mount would be asked to mount the bps = 1024
volume. -/
def st3 : St := { stMnt with disk := disk3, fat32_mounted := false }

/-- stMnt with the current directory moved off the root (cluster 5). -/
def st9 : St := { stMnt with current_dir_cluster := 5 }

/-- stMnt with the card removed (but still marked mounted - the poll has not
run yet). -/
def st10 : St := { stMnt with card_present := false }

/-- C1: the claim says every storage operation requiring a mounted volume
(fat32_file_open, fat32_file_read, fat32_dir_open, fat32_dir_read,
fat32_get_free_space, fat32_get_total_space, fat32_get_current_dir,
fat32_get_volume_name), called while no volume is mounted, returns a
non-success error and performs no work.  The code refutes it: in the state
right after fat32_init (unmounted, stored status FAT32_OK), every one of the
eight operations fails its fat32_is_ready() guard and returns the stored
status - which is FAT32_OK, i.e. success - while leaving every out-parameter
untouched and doing no work at all.  FAT32_ERROR_NOT_MOUNTED is never
returned by anything. -/
theorem C1_unmounted_ops_return_stale_success :
    fat32_is_mounted st1 = false ∧ fat32_is_ready st1 = false ∧
    st1.fat32_status = .FAT32_OK ∧
    fat32_file_open st1 f_closed hello_txt zero_entry = (.FAT32_OK, f_closed) ∧
    fat32_file_read st1 f_open_h 10 = (.FAT32_OK, f_open_h, none, []) ∧
    fat32_dir_open st1 d_closed [47] = (.FAT32_OK, d_closed) ∧
    fat32_dir_read st1 d_root zero_entry = (.FAT32_OK, d_root, zero_entry) ∧
    fat32_get_free_space st1 = (.FAT32_OK, none) ∧
    fat32_get_total_space st1 = (.FAT32_OK, none) ∧
    fat32_get_current_dir st1 260 = (.FAT32_OK, none) ∧
    fat32_get_volume_name st1 12 = (.FAT32_OK, none) := by decide

/-- C2: the claim says that, on a mounted volume, fat32_file_open succeeds
exactly when the path resolves to a non-directory, non-volume-label entry,
populating the handle.  The code refutes it: stMnt is mounted with the card
present and its root directory really contains an entry decoding to
"hello.txt" (third conjunct), yet fat32_file_open returns FAT32_OK while
leaving the handle closed and untouched, because fat32_is_ready() demands
the card be ABSENT, so the guard returns the stored mount status (FAT32_OK)
without resolving anything. -/
theorem C2_file_open_succeeds_without_opening :
    stMnt.fat32_mounted = true ∧ sd_card_present stMnt = true ∧
    convert_83_to_filename ((List.range 11).map (stMnt.disk 48)) = hello_txt ∧
    fat32_file_open stMnt f_closed hello_txt zero_entry = (.FAT32_OK, f_closed) ∧
    f_closed.is_open = false := by decide

/-- C3: the claim says fat32_mount returns InvalidFormat (leaving the volume
unmounted) whenever the selected boot sector is invalid - here
bytes-per-sector is 1024.  The code refutes it: sector 0 of st3's disk is a
well-signed superfloppy FAT32 boot sector with bytes_per_sector = 1024, yet
fat32_mount returns FAT32_ERROR_NO_CARD, not FAT32_ERROR_INVALID_FORMAT: at
fat32.c line 227 the bool result of sd_card_present() (true, the card is
present) is stored into a fat32_error_t, making it 1 = FAT32_ERROR_NO_CARD,
and the next line returns it before the boot sector is ever read or
validated. -/
theorem C3_mount_reports_no_card_not_invalid_format :
    st3.fat32_mounted = false ∧ sd_card_present st3 = true ∧
    fat32_is_fat_boot_sector (st3.disk 0) = true ∧
    (parse_boot_sector (st3.disk 0)).bytes_per_sector = 1024 ∧
    (fat32_mount st3).1 = .FAT32_ERROR_NO_CARD ∧
    (fat32_mount st3).2.fat32_mounted = false ∧
    Err.FAT32_ERROR_NO_CARD ≠ Err.FAT32_ERROR_INVALID_FORMAT := by decide

/-- C4: the claim says fat32_file_read on an open handle reports
min(n, file_size - position) bytes (or an early-chain-end prefix) and
advances the position by the bytes reported.  The code refutes it: on the
mounted state stMnt (card present) with an open handle at position 0 of a
100-byte file, reading 10 bytes returns FAT32_OK having read nothing - the
handle is unchanged, no data is copied and *bytes_read is never written -
because fat32_is_ready() demands the card be absent and the guard returns
the stale FAT32_OK status. -/
theorem C4_file_read_reads_nothing :
    f_open_h.is_open = true ∧ f_open_h.position = 0 ∧ f_open_h.file_size = 100 ∧
    stMnt.fat32_mounted = true ∧ sd_card_present stMnt = true ∧
    fat32_file_read stMnt f_open_h 10 = (.FAT32_OK, f_open_h, none, []) := by decide

/-- C5 counterexample: the claim says fat32_file_seek recomputes the current
cluster by walking the file's FAT cluster chain.  On diskM the FAT entry of
cluster 2 links to cluster 9, so walking 600 / 512 = 1 link from start
cluster 2 reaches cluster 9 - but fat32_file_seek sets the current cluster
to start_cluster + 1 = 3: the chain is never consulted. -/
theorem C5_seek_counterexample :
    f_frag.is_open = true ∧ stMnt.bytes_per_cluster = 512 ∧
    (fat32_file_seek stMnt f_frag 600).1 = .FAT32_OK ∧
    (fat32_file_seek stMnt f_frag 600).2.position = 600 ∧
    (fat32_file_seek stMnt f_frag 600).2.current_cluster = 3 ∧
    fat_chain_walk stMnt f_frag.start_cluster
      ((fat32_file_seek stMnt f_frag 600).2.position / stMnt.bytes_per_cluster) = some 9 ∧
    (3 : Nat) ≠ 9 := by decide

/-- C5 as amended: after fat32_file_seek(file, pos) on an open handle the
position is min(pos, file_size), and the current cluster is
start_cluster + position / bytes_per_cluster in uint32 arithmetic - a
contiguous-allocation assumption; the FAT chain is not consulted. -/
theorem C5_seek_amended (s : St) (f : Fat32File) (pos : Nat) (h : f.is_open = true) :
    fat32_file_seek s f pos =
      (.FAT32_OK, { f with
        position := min pos f.file_size,
        current_cluster := u32 (f.start_cluster + min pos f.file_size / s.bytes_per_cluster) }) := by
  have hx : (if pos > f.file_size then f.file_size else pos) = min pos f.file_size := by
    rcases Nat.lt_or_ge f.file_size pos with hlt | hge
    · rw [if_pos hlt, Nat.min_eq_right (Nat.le_of_lt hlt)]
    · rw [if_neg (by omega), Nat.min_eq_left hge]
  simp [fat32_file_seek, h, hx]

/-- C5 amended witness: the amended seek statement evaluated on the concrete
fragmented handle. -/
theorem C5_seek_amended_witness :
    f_frag.is_open = true ∧
    fat32_file_seek stMnt f_frag 600 =
      (.FAT32_OK, { f_frag with
        position := min 600 f_frag.file_size,
        current_cluster :=
          u32 (f_frag.start_cluster + min 600 f_frag.file_size / stMnt.bytes_per_cluster) }) :=
  ⟨rfl, C5_seek_amended stMnt f_frag 600 rfl⟩

/-- C6: the claim describes the name surfaced for every entry fat32_dir_read
reports (long name when a checksum-matched VFAT sequence precedes, decoded
8.3 name otherwise).  The code refutes its premise ever holding: dir_read
can never surface any entry.  On the mounted state stMnt (card present) the
root directory really contains a normal 8.3 entry decoding to "hello.txt",
yet fat32_dir_read returns FAT32_OK with the cursor and the out entry
completely untouched (name still empty - nothing surfaced), because
fat32_is_ready() demands the card be absent; and with the card absent every
sector read fails instead. -/
theorem C6_dir_read_never_surfaces :
    stMnt.fat32_mounted = true ∧ sd_card_present stMnt = true ∧ d_root.is_open = true ∧
    stMnt.disk 48 0 ≠ 0 ∧ stMnt.disk 48 11 = FAT32_ATTR_ARCHIVE ∧
    convert_83_to_filename ((List.range 11).map (stMnt.disk 48)) = hello_txt ∧
    fat32_dir_read stMnt d_root zero_entry = (.FAT32_OK, d_root, zero_entry) := by decide

/-- C7: the claim says fat32_get_free_space returns the FSInfo count times
bytes_per_cluster when the FSInfo sector is valid, or the full-FAT
zero-entry scan otherwise.  The code refutes it: stMnt's FSInfo sector is
valid (all three signatures, free count 1234 <= cluster_count), so the claim
requires 1234 * 512 - but the function returns FAT32_OK without writing the
out-parameter at all, because fat32_is_ready() demands the card be absent
and the guard returns the stale FAT32_OK status. -/
theorem C7_free_space_reports_nothing :
    stMnt.fat32_mounted = true ∧ sd_card_present stMnt = true ∧
    le32 (stMnt.disk 1) 0 = 0x41615252 ∧ le32 (stMnt.disk 1) 484 = 0x61417272 ∧
    le32 (stMnt.disk 1) 508 = 0xAA550000 ∧ le32 (stMnt.disk 1) 488 = 1234 ∧
    1234 ≤ stMnt.cluster_count ∧
    fat32_get_free_space stMnt = (.FAT32_OK, none) := by decide

/-- C8: fat32_file_write, fat32_file_create, fat32_file_delete,
fat32_dir_create and fat32_dir_delete are unimplemented placeholders: for
every input they return FAT32_ERROR_INVALID_PARAMETER and leave the whole
driver state - including the on-disk image - and the passed handle
unchanged. -/
theorem C8_write_ops_not_supported :
    (∀ (s : St) (f : Fat32File) (data : List Nat),
      fat32_file_write s f data = (.FAT32_ERROR_INVALID_PARAMETER, s, f)) ∧
    (∀ (s : St) (f : Fat32File) (name : List Nat),
      fat32_file_create s f name = (.FAT32_ERROR_INVALID_PARAMETER, s, f)) ∧
    (∀ (s : St) (name : List Nat),
      fat32_file_delete s name = (.FAT32_ERROR_INVALID_PARAMETER, s)) ∧
    (∀ (s : St) (d : Fat32Dir) (name : List Nat),
      fat32_dir_create s d name = (.FAT32_ERROR_INVALID_PARAMETER, s, d)) ∧
    (∀ (s : St) (d : Fat32Dir) (name : List Nat),
      fat32_dir_delete s d name = (.FAT32_ERROR_INVALID_PARAMETER, s, d)) :=
  ⟨fun _ _ _ => rfl, fun _ _ _ => rfl, fun _ _ => rfl, fun _ _ _ => rfl, fun _ _ _ => rfl⟩

/-- C9 counterexample: the claim says every unmount resets the tracked
current-directory cluster to the root cluster.  It does not: unmounting st9
(current directory at cluster 5, root cluster 2) clears the mounted flag but
leaves the current-directory cluster at 5. -/
theorem C9_unmount_counterexample :
    st9.current_dir_cluster = 5 ∧ st9.boot_sector.root_cluster = 2 ∧
    (fat32_unmount st9).fat32_mounted = false ∧
    (fat32_unmount st9).current_dir_cluster = 5 ∧
    (fat32_unmount st9).current_dir_cluster ≠ st9.boot_sector.root_cluster := by decide

/-- Helper: fat32_mount never changes the current-directory cluster - every
reachable return happens before the line that would set it (with no card it
delegates to fat32_unmount, already mounted it returns the state unchanged,
and otherwise the stray bool-to-error conversion at fat32.c line 227 returns
first). -/
theorem fat32_mount_preserves_current_dir (s : St) :
    (fat32_mount s).2.current_dir_cluster = s.current_dir_cluster := by
  unfold fat32_mount sd_card_present
  cases hc : s.card_present with
  | false => simp [hc, fat32_unmount]
  | true =>
    cases hm : s.fat32_mounted with
    | true => simp [hc, hm]
    | false => simp [hc, hm]

/-- C9 as amended: the current-directory cluster is mutated only by the
explicit change-directory operation (fat32_set_current_dir) and by
fat32_init; fat32_unmount - including the forced unmount performed by the
card-presence poll on removal - and fat32_mount leave it unchanged (the
reset to the root cluster sits on mount's success path, which is
unreachable), so no unmount resets it to the root cluster. -/
theorem C9_current_dir_amended :
    (∀ s : St, (fat32_unmount s).current_dir_cluster = s.current_dir_cluster) ∧
    (∀ s : St, (fat32_mount s).2.current_dir_cluster = s.current_dir_cluster) ∧
    (∀ (s : St) (n : Nat),
      (on_sd_card_detect s n).1.current_dir_cluster = s.current_dir_cluster) := by
  refine ⟨fun s => rfl, fat32_mount_preserves_current_dir, fun s n => ?_⟩
  unfold on_sd_card_detect
  split
  · rfl
  · split
    · rfl
    · split
      · exact fat32_mount_preserves_current_dir s
      · rfl

/-- C10 counterexample: the claim says fat32_mount called while a volume is
already mounted returns success and changes nothing.  Not when the card has
been pulled: on st10 (mounted, card absent) fat32_mount returns
FAT32_ERROR_NO_CARD and unmounts the volume. -/
theorem C10_mount_counterexample :
    st10.fat32_mounted = true ∧
    (fat32_mount st10).1 = .FAT32_ERROR_NO_CARD ∧
    (fat32_mount st10).1 ≠ .FAT32_OK ∧
    (fat32_mount st10).2.fat32_mounted = false := by decide

/-- C10 as amended: while a volume is mounted AND the card is still present,
fat32_mount returns FAT32_OK immediately with the entire state - boot-sector
copy, derived geometry, current-directory cluster, mounted flag, everything -
unchanged; with the card removed it instead unmounts and returns NoCard. -/
theorem C10_mount_idempotent_amended (s : St) (hm : s.fat32_mounted = true)
    (hc : s.card_present = true) : fat32_mount s = (.FAT32_OK, s) := by
  unfold fat32_mount sd_card_present
  simp [hc, hm]

/-- C10 amended witness: the amended idempotence statement evaluated on the
concrete mounted state. -/
theorem C10_mount_idempotent_amended_witness :
    stMnt.fat32_mounted = true ∧ stMnt.card_present = true ∧
    fat32_mount stMnt = (.FAT32_OK, stMnt) :=
  ⟨rfl, rfl, C10_mount_idempotent_amended stMnt rfl rfl⟩
